import Mathlib

/-!
Shallow embedding of the gdpsxyz client library (src/api.py, src/errors.py,
src/xyz.py).  Python dicts are modelled as ordered association lists, JSON
values as an inductive type, the process-wide `_authorization` global as an
explicit `Option Session` argument threaded through each operation, and the
local (pre-network) phase of each operation as a function returning either a
raised exception or the HTTP request it would issue.
-/

namespace GdpsXyz

/-- JSON values, as decoded by `r.json()`; `jnull` doubles as Python `None`
(the result of `dict.get` on a missing key). -/
inductive JsonVal where
  | jnull
  | jbool (b : Bool)
  | jnum (n : Int)
  | jstr (s : String)
  | jlist (xs : List JsonVal)
  | jdict (fields : List (String × JsonVal))

/-- Python truthiness for the modelled JSON values. -/
def pyTruthy : JsonVal → Bool
  | .jnull => false
  | .jbool b => b
  | .jnum n => n != 0
  | .jstr s => s != ""
  | .jlist [] => false
  | .jlist (_ :: _) => true
  | .jdict [] => false
  | .jdict (_ :: _) => true

/-- `d.get(k)` for a dict `d`: the value under `k`, or `None`.  (Only ever
applied to values already checked to be dicts in the source; on a non-dict
we return `jnull`.) -/
def jget : JsonVal → String → JsonVal
  | .jdict fs, k => match fs.lookup k with
    | some v => v
    | none => .jnull
  | _, _ => .jnull

/-- `d.get('timestamps', {}).get(k)` as used by the timestamped objects. -/
def jgetTs (d : JsonVal) (k : String) : JsonVal :=
  match jget d "timestamps" with
  | .jdict fs => jget (.jdict fs) k
  | _ => jget (.jdict []) k

/-- An HTTP response: its status code and decoded JSON body. -/
structure Response where
  status : Nat
  respBody : JsonVal

/-- `r.json().get('data')`. -/
def rdata (r : Response) : JsonVal := jget r.respBody "data"

/-! ## Exceptions (src/errors.py plus the Python builtins the code can hit) -/

/-- The exception classes of src/errors.py that api.py raises, together with
the Python builtin exceptions reachable from the modelled code paths. -/
inductive ErrKind where
  | BadRequest
  | NotFound
  | NotAcceptable
  | OutOfRateLimits
  | InternalServerError
  | NotInitSession
  | InvalidToken
  | AuthorizationError
  | AccountDeletionError
  | AssertionFailed
  | AttributeMissing
  | StopIterationRaised
  | ValueErrorRaised
deriving DecidableEq

/-- A raised Python exception: its class, the response it carries (when its
constructor was given one) and its optional message. -/
structure PyExc where
  kind : ErrKind
  res : Option Response
  msg : Option String

/-- The first constructor argument of `XYZException.__init__`: normally a
`requests` response, but `_auth_required` passes a bare message string. -/
inductive ResArg where
  | resp (r : Response)
  | strArg (s : String)

/-- `raise SomeXYZException(res, msg)` — the exception that actually
propagates.  `XYZException.__init__` evaluates `self.res.status_code` while
formatting `exc_data`, so when `res` is a string the constructor itself dies
with `AttributeError` and that error propagates instead of the intended one. -/
def xyzRaise (kind : ErrKind) (res : ResArg) (msg : Option String) : PyExc :=
  match res with
  | .resp r => { kind := kind, res := some r, msg := msg }
  | .strArg _ =>
    { kind := .AttributeMissing, res := none,
      msg := some "str object has no attribute status_code" }

/-- A failed `assert cond, msg`. -/
def assertExc (m : String) : PyExc :=
  { kind := .AssertionFailed, res := none, msg := some m }

/-- `None.token` — attribute access on `None` (`_authorization` unset). -/
def noneTokenAttrExc : PyExc :=
  { kind := .AttributeMissing, res := none,
    msg := some "NoneType object has no attribute token" }

/-- `next` on an exhausted iterator (`islice` over an emptied body dict). -/
def stopIterationExc : PyExc :=
  { kind := .StopIterationRaised, res := none, msg := none }

/-- `islice(body, i, None)` with a string `i` (an empty-string argument). -/
def isliceValueExc : PyExc :=
  { kind := .ValueErrorRaised, res := none,
    msg := some "Indices for islice must be None or an integer" }

/-! ## The generic status-code mapper (`_raise_for_errors`, api.py lines 43-54) -/

/-- The `raises` dict literal built at the top of `_raise_for_errors`. -/
def raisesTable (r : Response) : List (Nat × PyExc) :=
  [ (400, xyzRaise .BadRequest (.resp r) none),
    (401, xyzRaise .NotInitSession (.resp r)
      (some "you have hot initialized your session or did it wrong.")),
    (404, xyzRaise .NotFound (.resp r) (some "can not act with object.")),
    (406, xyzRaise .NotAcceptable (.resp r)
      (some "check the request data you trying to send.")),
    (409, xyzRaise .NotAcceptable (.resp r)
      (some "Attachment error. Check your avatar or background url validation.")),
    (429, xyzRaise .OutOfRateLimits (.resp r) none),
    (500, xyzRaise .InternalServerError (.resp r)
      (some "a server side error has occured. Contact developers for help.")) ]

/-- `if r.status_code in raises and r.status_code not in exc_of: raise
raises[r.status_code]`.  Returns the raised exception, or `none` when the
function falls through. -/
def raise_for_errors (r : Response) (exc_of : List Nat) : Option PyExc :=
  match (raisesTable r).lookup r.status with
  | some e => if r.status ∈ exc_of then none else some e
  | none => none

/-! ## Data objects (api.py / xyz.py constructors) -/

/-- `Session.__init__(token_session)`: each field is a `dict.get`, so each is
whatever JSON value the server supplied (possibly `None`). -/
structure Session where
  id : JsonVal
  token : JsonVal
  refresh_token : JsonVal
  token_expiration : JsonVal
  refresh_token_expiration : JsonVal

/-- Build a `Session` from an already-dict `token_session`. -/
def sessionOf (d : JsonVal) : Session :=
  { id := jget d "id",
    token := jget d "token",
    refresh_token := jget d "refreshToken",
    token_expiration := jget d "tokenExpiration",
    refresh_token_expiration := jget d "refreshTokenExpiration" }

/-- `Session(token_session)` as called on `r.json().get('data')`: calling
`.get` on a non-dict (for example `None`) raises `AttributeError`. -/
def sessionOfE (d : JsonVal) : Except PyExc Session :=
  match d with
  | .jdict fs => .ok (sessionOf (.jdict fs))
  | _ => .error
      { kind := .AttributeMissing, res := none,
        msg := some "object has no attribute get" }

/-- `Account.__init__(account)` (api.py lines 247-255). -/
structure Account where
  permission_level : JsonVal
  username : JsonVal
  avatar_url : JsonVal
  id : JsonVal
  created_at : JsonVal
  last_updated_at : JsonVal

def accountOf (d : JsonVal) : Account :=
  { permission_level := jget d "permissionLevel",
    username := jget d "username",
    avatar_url := jget d "avatarUrl",
    id := jget d "id",
    created_at := jget d "accountCreatedOn",
    last_updated_at := jget d "accountLastUpdatedOn" }

/-- `Comment.__init__(comment)` (api.py lines 401-411); `content` aliases
`text`. -/
structure Comment where
  author : JsonVal
  stats : JsonVal
  gdps_id : JsonVal
  text : JsonVal
  content : JsonVal
  id : JsonVal
  created_at : JsonVal
  last_updated_at : JsonVal

def commentOf (d : JsonVal) : Comment :=
  { author := jget d "account",
    stats := jget d "stats",
    gdps_id := jget d "gdpsId",
    text := jget d "text",
    content := jget d "text",
    id := jget d "id",
    created_at := jgetTs d "createdOn",
    last_updated_at := jgetTs d "lastUpdatedOn" }

/-- `GDPS.__init__(gdps)` (api.py lines 543-557). -/
structure GDPS where
  images : JsonVal
  owner : JsonVal
  links : JsonVal
  stats : JsonVal
  is_pre_moderated : JsonVal
  is_verified : JsonVal
  locale : JsonVal
  name : JsonVal
  desc : JsonVal
  id : JsonVal
  created_at : JsonVal
  last_updated_at : JsonVal

def gdpsOf (d : JsonVal) : GDPS :=
  { images := jget d "images",
    owner := jget d "account",
    links := jget d "links",
    stats := jget d "stats",
    is_pre_moderated := jget d "isPreModerated",
    is_verified := jget d "isVerified",
    locale := jget d "locale",
    name := jget d "name",
    desc := jget d "desc",
    id := jget d "id",
    created_at := jgetTs d "createdOn",
    last_updated_at := jgetTs d "lastUpdatedOn" }

/-! ## Requests and the local (pre-network) phase of each operation -/

/-- One piece of an f-string URL: literal text or an interpolated value. -/
inductive UrlPiece where
  | lit (s : String)
  | val (v : JsonVal)

/-- The request an operation hands to `requests.<method>`. -/
structure HttpRequest where
  method : String
  url : List UrlPiece
  params : List (String × JsonVal)
  reqBody : Option (List (String × JsonVal))
  bearer : Option JsonVal

/-- Outcome of the local phase of an operation: either an exception raised
before any network traffic, or the HTTP request that gets issued. -/
inductive LocalOutcome where
  | raise (e : PyExc)
  | send (q : HttpRequest)

/-- The `_auth_required` decorator: when the global `_authorization` is not a
`Session`, it raises `errors.NotInitialized('you have not initialized your
session.')` — whose constructor, being handed a string as `res`, itself dies
with `AttributeError` (see `xyzRaise`). -/
def auth_required (auth : Option Session) (k : Session → LocalOutcome) :
    LocalOutcome :=
  match auth with
  | none => .raise (xyzRaise .NotInitSession
      (.strArg "you have not initialized your session.") none)
  | some s => k s

/-! ## Session lifecycle (api.py lines 98-195)

The process-wide `_authorization` global is threaded explicitly as an
`Option Session` (it starts as `None`; `isinstance(_authorization, Session)`
and `if _authorization:` both reduce to `isSome` since any `Session` object
is truthy). -/

/-- `Session.init()`: publishes `self` as the process-wide active session. -/
def Session.init (s : Session) (_auth : Option Session) : Option Session :=
  some s

/-- `Session.__enter__`: calls `self.init()` and returns `self`. -/
def Session.enter (s : Session) (auth : Option Session) :
    Session × Option Session :=
  (s, s.init auth)

/-- Result of `Session.__exit__`: whether `self.close()` was invoked and the
returned truth value (a true return would suppress the exception). -/
structure ExitResult where
  closeCalled : Bool
  suppress : Bool

/-- `Session.__exit__(exc_type, exc_val, exc_tb)`: closes only when
`exc_type is None`, and always returns `False`. -/
def Session.exitStep (excType : Option PyExc) : ExitResult :=
  match excType with
  | none => { closeCalled := true, suppress := false }
  | some _ => { closeCalled := false, suppress := false }

/-- `Session.refresh()` applied to the response `r` of the reauthorize
request: when `r.json().get('data')` is truthy the access token is replaced
in place and — whenever `_authorization` is truthy at all — `self.init()`
re-publishes this session; otherwise the error ladder runs (401 exempted
from the generic mapper and re-raised as `InvalidToken`).  Returns the
updated session, the updated global, and the raised exception if any. -/
def Session.refresh (s : Session) (auth : Option Session) (r : Response) :
    Session × Option Session × Option PyExc :=
  let sessionData := rdata r
  if pyTruthy sessionData then
    let s' := { s with token := jget sessionData "token" }
    if auth.isSome then (s', s'.init auth, none)
    else (s', auth, none)
  else if 400 ≤ r.status then
    match raise_for_errors r [401] with
    | some e => (s, auth, some e)
    | none =>
      if r.status = 401 then
        (s, auth, some (xyzRaise .InvalidToken (.resp r)
          (some "Can not refresh session. Invalid refresh token.")))
      else (s, auth, none)
  else (s, auth, none)

/-- `Session.close()` applied to the response `r` of the delete request: it
touches neither `self` nor `_authorization`; it only raises on error
statuses (401 exempted and re-raised as `InvalidToken`). -/
def Session.close (s : Session) (auth : Option Session) (r : Response) :
    Session × Option Session × Option PyExc :=
  let e : Option PyExc :=
    if 400 ≤ r.status then
      match raise_for_errors r [401] with
      | some e => some e
      | none =>
        if r.status = 401 then
          some (xyzRaise .InvalidToken (.resp r) (some "invalid session token."))
        else none
    else none
  (s, auth, e)

/-! ## The partial-update body loop (MyAccount.update / GDPS.update)

`for i in args: if i: asserts else: del body[next(islice(body, i, None))]`.
For a falsy `i`, `islice(body, i, None)` is `islice(body, None, None)` when
`i is None` (its `next` is the FIRST remaining key, or `StopIteration` on an
empty dict) and a `ValueError` when `i` is an empty string (`islice` start
must be `None` or an integer). -/

/-- Python truthiness of an optional-string argument. -/
def optStrTruthy : Option String → Bool
  | none => false
  | some s => s != ""

/-- The JSON value an optional-string argument contributes to the body. -/
def jOpt : Option String → JsonVal
  | none => .jnull
  | some s => .jstr s

/-- The deletion loop over the argument tuple and the ordered body dict. -/
def updateBodyLoop :
    List (Option String) → List (String × JsonVal) →
    Except PyExc (List (String × JsonVal))
  | [], b => .ok b
  | i :: rest, b =>
    if optStrTruthy i then updateBodyLoop rest b
    else match i with
      | some _ => .error isliceValueExc
      | none => match b with
        | [] => .error stopIterationExc
        | _ :: b' => updateBodyLoop rest b'

/-- The JSON body `MyAccount.update` ends up sending.  Note the initial dict
literal has only `email`, `password` and `username` — `avatar_url` is
missing from it. -/
def MyAccount.update_body (email password avatar_url username : Option String) :
    Except PyExc (List (String × JsonVal)) :=
  updateBodyLoop [email, password, avatar_url, username]
    [("email", jOpt email), ("password", jOpt password),
     ("username", jOpt username)]

/-- The JSON body `GDPS.update` ends up sending. -/
def GDPS.update_body
    (name desc link dashboard_link download_windows download_android
      locale avatar_url background_url : Option String) :
    Except PyExc (List (String × JsonVal)) :=
  updateBodyLoop
    [name, desc, link, dashboard_link, download_windows, download_android,
     locale, avatar_url, background_url]
    [("name", jOpt name), ("desc", jOpt desc), ("link", jOpt link),
     ("dashboardLink", jOpt dashboard_link),
     ("downloadWindowsLink", jOpt download_windows),
     ("downloadAndroidLink", jOpt download_android),
     ("locale", jOpt locale), ("avatarUrl", jOpt avatar_url),
     ("backgroundUrl", jOpt background_url)]

/-! ## Local phases of the operations (argument checks up to the request)

Arguments typed `Int`/`String` in the source's `isinstance` asserts are so
typed here; the remaining asserts are Python truthiness checks, so `assert
page` only rejects `page = 0` and `assert vote_type` only rejects `0`. -/

/-- `me()` (api.py lines 783-794, decorated). -/
def me (auth : Option Session) : LocalOutcome :=
  auth_required auth fun s =>
    .send { method := "GET",
            url := [.lit "https://gdps.xyz/api/account/me/"],
            params := [], reqBody := none, bearer := some s.token }

/-- `create_gdps(name, desc, link, *, avatar_url, background_url)`
(api.py lines 946-984, decorated). -/
def create_gdps (auth : Option Session) (name desc link : String)
    (avatar_url background_url : Option String) : LocalOutcome :=
  auth_required auth fun s =>
    if name = "" then .raise (assertExc "GDPS main informations can not be empty.")
    else if desc = "" then .raise (assertExc "GDPS main informations can not be empty.")
    else if link = "" then .raise (assertExc "GDPS main informations can not be empty.")
    else
      let b0 := [("name", JsonVal.jstr name), ("desc", JsonVal.jstr desc),
                 ("link", JsonVal.jstr link)]
      let b1 := if optStrTruthy avatar_url
        then b0 ++ [("avatarUrl", jOpt avatar_url)] else b0
      let b2 := if optStrTruthy background_url
        then b1 ++ [("backgroundUrl", jOpt background_url)] else b1
      .send { method := "POST",
              url := [.lit "https://gdps.xyz/api/gdps/create/"],
              params := [], reqBody := some b2, bearer := some s.token }

/-- `search_for_gdps(query, page)` (api.py lines 991-1008, no auth). -/
def search_for_gdps (query : String) (page : Int) : LocalOutcome :=
  if query = "" then .raise (assertExc "search query can not be empty.")
  else if page = 0 then .raise (assertExc "page integer must be positive.")
  else .send { method := "GET",
               url := [.lit "https://gdps.xyz/api/gdps/search"],
               params := [("urlencoded", .jstr query), ("page", .jnum page)],
               reqBody := none, bearer := none }

/-- `Session.sessions(page)` (api.py lines 134-152, no global auth check:
it uses `self.token`). -/
def Session.sessions (s : Session) (page : Int) : LocalOutcome :=
  if page = 0 then .raise (assertExc "page integer must be positive.")
  else .send { method := "GET",
               url := [.lit "https://gdps.xyz/api/session/all/"],
               params := [("page", .jnum page)],
               reqBody := none, bearer := some s.token }

/-- `MyAccount.gdpslist(page)` (api.py lines 300-325, decorated). -/
def MyAccount.gdpslist (auth : Option Session) (page : Int) : LocalOutcome :=
  auth_required auth fun s =>
    if page = 0 then .raise (assertExc "page integer must be positive.")
    else .send { method := "GET",
                 url := [.lit "https://gdps.xyz/api/gdps/my"],
                 params := [("page", .jnum page)],
                 reqBody := none, bearer := some s.token }

/-- `MyAccount.update(...)` (api.py lines 327-363, decorated). -/
def MyAccount.update (auth : Option Session)
    (email password avatar_url username : Option String) : LocalOutcome :=
  auth_required auth fun s =>
    match MyAccount.update_body email password avatar_url username with
    | .error e => .raise e
    | .ok b =>
      .send { method := "PUT",
              url := [.lit "https://gdps.xyz/api/account/update/"],
              params := [], reqBody := some b, bearer := some s.token }

/-- `MyAccount.delete()` (api.py lines 365-384, decorated). -/
def MyAccount.delete (auth : Option Session) : LocalOutcome :=
  auth_required auth fun s =>
    .send { method := "DELETE",
            url := [.lit "https://gdps.xyz/api/account/delete/"],
            params := [], reqBody := none, bearer := some s.token }

/-- `Comment.update(text)` (api.py lines 434-456).  NOT decorated with
`_auth_required`: with no active session the asserts still run, and then the
header f-string evaluates `_authorization.token` on `None`. -/
def Comment.update (auth : Option Session) (c : Comment) (text : String) :
    LocalOutcome :=
  if text = "" then .raise (assertExc "text can not be empty.")
  else match auth with
    | none => .raise noneTokenAttrExc
    | some s =>
      .send { method := "PUT",
              url := [.lit "https://gdps.xyz/api/gdps/", .val c.gdps_id,
                      .lit "/comment/", .val c.id, .lit "/"],
              params := [], reqBody := some [("text", .jstr text)],
              bearer := some s.token }

/-- `Comment.delete()` (api.py lines 458-475, decorated). -/
def Comment.delete (auth : Option Session) (c : Comment) : LocalOutcome :=
  auth_required auth fun s =>
    .send { method := "DELETE",
            url := [.lit "https://gdps.xyz/api/gdps/", .val c.gdps_id,
                    .lit "/comment/", .val c.id, .lit "/"],
            params := [], reqBody := none, bearer := some s.token }

/-- `Comment.vote(vote_type)` (api.py lines 477-500, decorated). -/
def Comment.vote (auth : Option Session) (c : Comment) (vote_type : Int) :
    LocalOutcome :=
  auth_required auth fun s =>
    if vote_type = 0 then
      .raise (assertExc "vote type must be like or dislike (1 or 2).")
    else
      .send { method := "POST",
              url := [.lit "https://gdps.xyz/api/gdps/", .val c.gdps_id,
                      .lit "/comment/", .val c.id, .lit "/vote/"],
              params := [("type", .jnum vote_type)],
              reqBody := none, bearer := some s.token }

/-- `Comment.unvote()` (api.py lines 502-521, decorated). -/
def Comment.unvote (auth : Option Session) (c : Comment) : LocalOutcome :=
  auth_required auth fun s =>
    .send { method := "DELETE",
            url := [.lit "https://gdps.xyz/api/gdps/", .val c.gdps_id,
                    .lit "/comment/", .val c.id, .lit "/vote/"],
            params := [], reqBody := none, bearer := some s.token }

/-- `GDPS.create_comment(text)` (api.py lines 605-629, decorated). -/
def GDPS.create_comment (auth : Option Session) (g : GDPS) (text : String) :
    LocalOutcome :=
  auth_required auth fun s =>
    if text = "" then .raise (assertExc "comment text can not be empty.")
    else
      .send { method := "POST",
              url := [.lit "https://gdps.xyz/api/gdps/", .val g.id,
                      .lit "/comment/create/"],
              params := [], reqBody := some [("text", .jstr text)],
              bearer := some s.token }

/-- `GDPS.get_comment_page(page)` (api.py lines 631-645, no auth). -/
def GDPS.get_comment_page (g : GDPS) (page : Int) : LocalOutcome :=
  if page = 0 then .raise (assertExc "page integer must be positive.")
  else .send { method := "GET",
               url := [.lit "https://gdps.xyz/api/gdps/", .val g.id,
                       .lit "/comment/all/"],
               params := [("page", .jnum page)],
               reqBody := none, bearer := none }

/-- `GDPS.update(...)` (api.py lines 647-699, decorated). -/
def GDPS.update (auth : Option Session) (g : GDPS)
    (name desc link dashboard_link download_windows download_android
      locale avatar_url background_url : Option String) : LocalOutcome :=
  auth_required auth fun s =>
    match GDPS.update_body name desc link dashboard_link download_windows
        download_android locale avatar_url background_url with
    | .error e => .raise e
    | .ok b =>
      .send { method := "PUT",
              url := [.lit "https://gdps.xyz/api/gdps/", .val g.id],
              params := [], reqBody := some b, bearer := some s.token }

/-- `GDPS.delete()` (api.py lines 701-718, decorated). -/
def GDPS.delete (auth : Option Session) (g : GDPS) : LocalOutcome :=
  auth_required auth fun s =>
    .send { method := "DELETE",
            url := [.lit "https://gdps.xyz/api/gdps/", .val g.id, .lit "/"],
            params := [], reqBody := none, bearer := some s.token }

/-- `GDPS.vote(vote_type)` (api.py lines 720-743, decorated). -/
def GDPS.vote (auth : Option Session) (g : GDPS) (vote_type : Int) :
    LocalOutcome :=
  auth_required auth fun s =>
    if vote_type = 0 then
      .raise (assertExc "vote type must be like or dislike (1 or 2).")
    else
      .send { method := "POST",
              url := [.lit "https://gdps.xyz/api/gdps/", .val g.id,
                      .lit "/vote/"],
              params := [("type", .jnum vote_type)],
              reqBody := none, bearer := some s.token }

/-- `GDPS.unvote()` (api.py lines 745-764, decorated). -/
def GDPS.unvote (auth : Option Session) (g : GDPS) : LocalOutcome :=
  auth_required auth fun s =>
    .send { method := "DELETE",
            url := [.lit "https://gdps.xyz/api/gdps/", .val g.id,
                    .lit "/vote/"],
            params := [], reqBody := none, bearer := some s.token }

/-! ## Full semantics of the fetch-by-id functions and `authorize` -/

/-- The `InternalServerError` the fetch-by-id functions raise on 500. -/
def iseExc (r : Response) : PyExc :=
  xyzRaise .InternalServerError (.resp r)
    (some "a server side error has occured. Contact developers for help.")

/-- `get_account(account_id)` (api.py lines 770-780) applied to response
`r`: raises only for status 500; any other response yields the decoded
`Account` when `data` is a dict and `None` otherwise. -/
def get_account (account_id : Int) (r : Response) :
    Except PyExc (Option Account) :=
  if account_id = 0 then .error (assertExc "account id must be positive.")
  else if r.status = 500 then .error (iseExc r)
  else match rdata r with
    | .jdict fs => .ok (some (accountOf (.jdict fs)))
    | _ => .ok none

/-- `get_gdps(gdps_id)` (api.py lines 933-943) applied to response `r`. -/
def get_gdps (gdps_id : Int) (r : Response) : Except PyExc (Option GDPS) :=
  if gdps_id = 0 then .error (assertExc "GDPS id must be positive.")
  else if r.status = 500 then .error (iseExc r)
  else match rdata r with
    | .jdict fs => .ok (some (gdpsOf (.jdict fs)))
    | _ => .ok none

/-- `GDPS.get_comment(comment_id)` (api.py lines 593-603) applied to
response `r`. -/
def GDPS.get_comment (_g : GDPS) (comment_id : Int) (r : Response) :
    Except PyExc (Option Comment) :=
  if comment_id = 0 then .error (assertExc "comment id must be positive.")
  else if r.status = 500 then .error (iseExc r)
  else match rdata r with
    | .jdict fs => .ok (some (commentOf (.jdict fs)))
    | _ => .ok none

/-- `authorize(email, password)` (api.py lines 854-876) applied to response
`r`: generic mapper with no exemptions, then a call-site 403 branch; when
nothing was raised (including any unmapped status such as 502) the code
falls through to `Session(r.json().get('data'))`. -/
def authorize (email password : String) (r : Response) :
    Except PyExc Session :=
  if email = "" then .error (assertExc "email or password can not be empty.")
  else if password = "" then
    .error (assertExc "email or password can not be empty.")
  else
    let raised : Option PyExc :=
      if 400 ≤ r.status then
        match raise_for_errors r [] with
        | some e => some e
        | none =>
          if r.status = 403 then
            some (xyzRaise .AuthorizationError (.resp r)
              (some "invalid email or password, or account was not activated."))
          else none
      else none
    match raised with
    | some e => .error e
    | none => sessionOfE (rdata r)

/-! # Theorems -/

/-- C2: for every response `r` and exemption list: a non-exempted status in
the table raises exactly the corresponding exception kind carrying `r`
(400 BadRequest, 401 NotInitialized, 404 NotFound, 406 NotAcceptable,
409 NotAcceptable, 429 OutOfRateLimits, 500 InternalServerError), and every
status outside the table (402, 403, 502, 503, 2xx, 3xx, ...) raises
nothing. -/
theorem C2_generic_mapper (r : Response) (exc : List Nat)
    (h : r.status ∉ exc) :
    (r.status = 400 → raise_for_errors r exc =
      some { kind := .BadRequest, res := some r, msg := none }) ∧
    (r.status = 401 → raise_for_errors r exc =
      some { kind := .NotInitSession, res := some r,
             msg := some "you have hot initialized your session or did it wrong." }) ∧
    (r.status = 404 → raise_for_errors r exc =
      some { kind := .NotFound, res := some r,
             msg := some "can not act with object." }) ∧
    (r.status = 406 → raise_for_errors r exc =
      some { kind := .NotAcceptable, res := some r,
             msg := some "check the request data you trying to send." }) ∧
    (r.status = 409 → raise_for_errors r exc =
      some { kind := .NotAcceptable, res := some r,
             msg := some "Attachment error. Check your avatar or background url validation." }) ∧
    (r.status = 429 → raise_for_errors r exc =
      some { kind := .OutOfRateLimits, res := some r, msg := none }) ∧
    (r.status = 500 → raise_for_errors r exc =
      some { kind := .InternalServerError, res := some r,
             msg := some "a server side error has occured. Contact developers for help." }) ∧
    (r.status ∉ ([400, 401, 404, 406, 409, 429, 500] : List Nat) →
      raise_for_errors r exc = none) := by
  refine ⟨?_, ?_, ?_, ?_, ?_, ?_, ?_, ?_⟩
  all_goals intro hq
  case _ | _ | _ | _ | _ | _ | _ =>
    rw [hq] at h
    simp [raise_for_errors, raisesTable, List.lookup, xyzRaise, hq, h]
  · simp only [List.mem_cons, List.not_mem_nil, not_or, or_false] at hq
    obtain ⟨h1, h2, h3, h4, h5, h6, h7⟩ := hq
    have e1 : (r.status == 400) = false := by simp [h1]
    have e2 : (r.status == 401) = false := by simp [h2]
    have e3 : (r.status == 404) = false := by simp [h3]
    have e4 : (r.status == 406) = false := by simp [h4]
    have e5 : (r.status == 409) = false := by simp [h5]
    have e6 : (r.status == 429) = false := by simp [h6]
    have e7 : (r.status == 500) = false := by simp [h7]
    simp [raise_for_errors, raisesTable, List.lookup,
      e1, e2, e3, e4, e5, e6, e7]

/-- C2 witness: the theorem applied at a concrete 400 response with no
exemptions. -/
theorem C2_generic_mapper_witness :
    raise_for_errors { status := 400, respBody := .jnull } [] =
      some { kind := .BadRequest,
             res := some { status := 400, respBody := .jnull }, msg := none } :=
  (C2_generic_mapper { status := 400, respBody := .jnull } []
    (by simp)).1 rfl

/-- C1: with no active session every decorated operation does fail locally
before any network request — but the exception that propagates is NOT
`NotInitialized`: `XYZException.__init__` formats `self.res.status_code`
and `_auth_required` hands it the message string as `res`, so the
constructor itself dies with `AttributeError`; and `Comment.update` is not
decorated at all and dies with `AttributeError` at header construction. -/
theorem C1_auth_gate_eval :
    ∃ e : PyExc, e.kind = .AttributeMissing ∧ e.kind ≠ .NotInitSession ∧
      me none = .raise e ∧
      (∀ name desc link au bu,
        create_gdps none name desc link au bu = .raise e) ∧
      (∀ page, MyAccount.gdpslist none page = .raise e) ∧
      (∀ em pw av un, MyAccount.update none em pw av un = .raise e) ∧
      MyAccount.delete none = .raise e ∧
      (∀ g text, GDPS.create_comment none g text = .raise e) ∧
      (∀ g n d l dl dw da lo au bu,
        GDPS.update none g n d l dl dw da lo au bu = .raise e) ∧
      (∀ g, GDPS.delete none g = .raise e) ∧
      (∀ g vt, GDPS.vote none g vt = .raise e) ∧
      (∀ g, GDPS.unvote none g = .raise e) ∧
      (∀ c, Comment.delete none c = .raise e) ∧
      (∀ c vt, Comment.vote none c vt = .raise e) ∧
      (∀ c, Comment.unvote none c = .raise e) ∧
      Comment.update none (commentOf (.jdict [])) "hi" =
        .raise noneTokenAttrExc ∧
      noneTokenAttrExc.kind = .AttributeMissing := by
  refine ⟨xyzRaise .NotInitSession
    (.strArg "you have not initialized your session.") none,
    rfl, by decide, rfl, fun _ _ _ _ _ => rfl, fun _ => rfl,
    fun _ _ _ _ => rfl, rfl, fun _ _ => rfl,
    fun _ _ _ _ _ _ _ _ _ _ => rfl, fun _ => rfl, fun _ _ => rfl,
    fun _ => rfl, fun _ => rfl, fun _ _ => rfl, fun _ => rfl, rfl, rfl⟩

/-- C3 counterexample: refreshing session id 1 while session id 2 is the
published active session re-publishes session 1 as active — the claim says
the active-session pointer is left unchanged when the refreshed session is
not the active one. -/
theorem C3_refresh_counterexample :
    (Session.refresh
      { id := .jnum 1, token := .jstr "tokA", refresh_token := .jstr "ra",
        token_expiration := .jnum 5, refresh_token_expiration := .jnum 6 }
      (some { id := .jnum 2, token := .jstr "tokB", refresh_token := .jstr "rb",
              token_expiration := .jnum 7, refresh_token_expiration := .jnum 8 })
      { status := 200,
        respBody := .jdict [("data", .jdict [("token", .jstr "newTok")])] }).2.1 ≠
    some { id := .jnum 2, token := .jstr "tokB", refresh_token := .jstr "rb",
           token_expiration := .jnum 7, refresh_token_expiration := .jnum 8 } := by
  simp [Session.refresh, rdata, jget, pyTruthy, Session.init, List.lookup]

/-- C3 amended: a successful refresh (truthy `data` field) raises nothing
and replaces only the token field, but it re-publishes the refreshed
session as the process-wide active session whenever the active pointer is
non-None at all — not only when this session is the active one. -/
theorem C3_refresh_amended (s : Session) (auth : Option Session)
    (r : Response) (hs : pyTruthy (rdata r) = true) :
    (Session.refresh s auth r).2.2 = none ∧
    ((Session.refresh s auth r).1).id = s.id ∧
    ((Session.refresh s auth r).1).refresh_token = s.refresh_token ∧
    ((Session.refresh s auth r).1).token_expiration = s.token_expiration ∧
    ((Session.refresh s auth r).1).refresh_token_expiration =
      s.refresh_token_expiration ∧
    ((Session.refresh s auth r).1).token = jget (rdata r) "token" ∧
    (Session.refresh s auth r).2.1 =
      (if auth.isSome then some ((Session.refresh s auth r).1) else auth) := by
  cases auth <;> simp [Session.refresh, hs, Session.init]

/-- C3 witness: the amended theorem applied to a concrete successful
refresh with no published session. -/
theorem C3_refresh_amended_witness :
    (Session.refresh
      { id := .jnum 1, token := .jstr "tokA", refresh_token := .jstr "ra",
        token_expiration := .jnum 5, refresh_token_expiration := .jnum 6 }
      none
      { status := 200,
        respBody := .jdict [("data", .jdict [("token", .jstr "newTok")])] }).2.2 =
      none :=
  (C3_refresh_amended
    { id := .jnum 1, token := .jstr "tokA", refresh_token := .jstr "ra",
      token_expiration := .jnum 5, refresh_token_expiration := .jnum 6 }
    none
    { status := 200,
      respBody := .jdict [("data", .jdict [("token", .jstr "newTok")])] }
    (by rfl)).1

/-- C4 counterexample: `search_for_gdps` with `page = -1` does NOT fail
locally — `assert page` is a truthiness check, `-1` is truthy, and the
request is issued with the negative page.  The claim says every
non-positive page fails locally with no network request. -/
theorem C4_negative_page_counterexample :
    search_for_gdps "query" (-1) =
      .send { method := "GET",
              url := [.lit "https://gdps.xyz/api/gdps/search"],
              params := [("urlencoded", .jstr "query"), ("page", .jnum (-1))],
              reqBody := none, bearer := none } := by
  rfl

/-- C4 amended: the paginated operations fail locally (AssertionError, no
request) exactly for `page = 0`; every nonzero page — negative included —
passes the local check and a network request is issued. -/
theorem C4_page_check_amended (s auth : Session) (g : GDPS)
    (q : String) (page : Int) (hq : q ≠ "") (hp : page ≠ 0) :
    Session.sessions s 0 =
      .raise (assertExc "page integer must be positive.") ∧
    MyAccount.gdpslist (some auth) 0 =
      .raise (assertExc "page integer must be positive.") ∧
    GDPS.get_comment_page g 0 =
      .raise (assertExc "page integer must be positive.") ∧
    search_for_gdps q 0 =
      .raise (assertExc "page integer must be positive.") ∧
    (∃ req, Session.sessions s page = .send req) ∧
    (∃ req, MyAccount.gdpslist (some auth) page = .send req) ∧
    (∃ req, GDPS.get_comment_page g page = .send req) ∧
    (∃ req, search_for_gdps q page = .send req) := by
  refine ⟨rfl, rfl, rfl, by simp [search_for_gdps, hq], ?_, ?_, ?_, ?_⟩
  · simp only [Session.sessions, if_neg hp]
    exact ⟨_, rfl⟩
  · simp only [MyAccount.gdpslist, auth_required, if_neg hp]
    exact ⟨_, rfl⟩
  · simp only [GDPS.get_comment_page, if_neg hp]
    exact ⟨_, rfl⟩
  · simp only [search_for_gdps, if_neg hq, if_neg hp]
    exact ⟨_, rfl⟩

/-- C4 witness: the amended theorem applied at a concrete session, GDPS,
query and page. -/
theorem C4_page_check_amended_witness :
    Session.sessions (sessionOf (.jdict [])) 0 =
      .raise (assertExc "page integer must be positive.") :=
  (C4_page_check_amended (sessionOf (.jdict [])) (sessionOf (.jdict []))
    (gdpsOf (.jdict [])) "q" (-1) (by decide) (by decide)).1

/-- C5 counterexample: `GDPS.vote` with `vote_type = 3` does NOT fail
locally — `assert vote_type` is a truthiness check, so any nonzero integer
passes and the request is issued with `type = 3`.  The claim says every
value outside {1, 2} fails locally. -/
theorem C5_vote_type_counterexample :
    GDPS.vote (some (sessionOf (.jdict []))) (gdpsOf (.jdict [])) 3 =
      .send { method := "POST",
              url := [.lit "https://gdps.xyz/api/gdps/",
                      .val (gdpsOf (.jdict [])).id, .lit "/vote/"],
              params := [("type", .jnum 3)],
              reqBody := none,
              bearer := some (sessionOf (.jdict [])).token } := by
  rfl

/-- C5 amended: with an active session, vote submission fails locally
(AssertionError, no request) exactly for `vote_type = 0`; every nonzero
integer — 3 and -1 included — is sent to the server as the `type`
parameter. -/
theorem C5_vote_type_amended (s : Session) (g : GDPS) (c : Comment)
    (vt : Int) (h : vt ≠ 0) :
    GDPS.vote (some s) g 0 =
      .raise (assertExc "vote type must be like or dislike (1 or 2).") ∧
    Comment.vote (some s) c 0 =
      .raise (assertExc "vote type must be like or dislike (1 or 2).") ∧
    (∃ q, GDPS.vote (some s) g vt = .send q ∧
      q.params = [("type", .jnum vt)]) ∧
    (∃ q, Comment.vote (some s) c vt = .send q ∧
      q.params = [("type", .jnum vt)]) := by
  refine ⟨rfl, rfl, ?_, ?_⟩
  · simp only [GDPS.vote, auth_required, if_neg h]
    exact ⟨_, rfl, rfl⟩
  · simp only [Comment.vote, auth_required, if_neg h]
    exact ⟨_, rfl, rfl⟩

/-- C5 witness: the amended theorem applied at a concrete session, GDPS,
comment and `vote_type = -1`. -/
theorem C5_vote_type_amended_witness :
    GDPS.vote (some (sessionOf (.jdict []))) (gdpsOf (.jdict [])) 0 =
      .raise (assertExc "vote type must be like or dislike (1 or 2).") :=
  (C5_vote_type_amended (sessionOf (.jdict [])) (gdpsOf (.jdict []))
    (commentOf (.jdict [])) (-1) (by decide)).1

/-- C6: the partial-update body is NOT "exactly the non-falsy arguments".
The deletion loop `del body[next(islice(body, i, None))]` removes the FIRST
remaining key for every falsy argument, not the argument's own key:
`GDPS.update(desc = "d")` sends `{"backgroundUrl": null}`;
`MyAccount.update(username = "bob")` sends `{}`; `MyAccount.update()` with
no arguments raises StopIteration; and a fully-supplied `MyAccount.update`
still omits `avatar_url`, which is missing from the body dict literal. -/
theorem C6_update_body_eval :
    GDPS.update_body none (some "d") none none none none none none none =
      .ok [("backgroundUrl", .jnull)] ∧
    MyAccount.update_body none none none (some "bob") = .ok [] ∧
    MyAccount.update_body none none none none = .error stopIterationExc ∧
    MyAccount.update_body (some "a") (some "p") (some "u") (some "n") =
      .ok [("email", .jstr "a"), ("password", .jstr "p"),
           ("username", .jstr "n")] :=
  ⟨rfl, rfl, rfl, rfl⟩

/-- C7 counterexample: `authorize` on a 502 response raises nothing — 502
is outside the generic mapper's table and not 403, so the code falls
through and builds a `Session` from the data field.  The claim says every
5xx raises a generic server-error condition. -/
theorem C7_authorize_counterexample :
    authorize "a" "b"
      { status := 502,
        respBody := .jdict [("data", .jdict [("token", .jstr "t")])] } =
      .ok (sessionOf (.jdict [("token", .jstr "t")])) := by
  rfl

/-- C7 amended: with nonempty credentials, `authorize` raises
AuthorizationError exactly on 403 and InternalServerError exactly on 500
(the only mapped 5xx); every status outside the mapper's table and 403 —
502 and 503 included — raises no library exception and proceeds to decode
the data field, returning the `Session` built from it when it is a dict. -/
theorem C7_authorize_amended (email password : String) (r : Response)
    (he : email ≠ "") (hp : password ≠ "") :
    (r.status = 403 → authorize email password r =
      .error (xyzRaise .AuthorizationError (.resp r)
        (some "invalid email or password, or account was not activated."))) ∧
    (r.status = 500 → authorize email password r = .error (iseExc r)) ∧
    (r.status < 400 → authorize email password r = sessionOfE (rdata r)) ∧
    (r.status ∉ ([400, 401, 403, 404, 406, 409, 429, 500] : List Nat) →
      authorize email password r = sessionOfE (rdata r)) ∧
    (∀ fs, rdata r = .jdict fs → r.status < 400 →
      authorize email password r = .ok (sessionOf (.jdict fs))) := by
  refine ⟨?_, ?_, ?_, ?_, ?_⟩
  · intro hs
    simp [authorize, he, hp, hs, raise_for_errors, raisesTable, List.lookup,
      xyzRaise]
  · intro hs
    simp [authorize, he, hp, hs, raise_for_errors, raisesTable, List.lookup,
      iseExc, xyzRaise]
  · intro hs
    have hlt : ¬ (400 ≤ r.status) := by omega
    simp [authorize, he, hp, hlt]
  · intro hs
    simp only [List.mem_cons, List.not_mem_nil, not_or, or_false] at hs
    obtain ⟨h1, h2, h3, h4, h5, h6, h7, h8⟩ := hs
    by_cases hge : 400 ≤ r.status
    · have e1 : (r.status == 400) = false := by simp [h1]
      have e2 : (r.status == 401) = false := by simp [h2]
      have e4 : (r.status == 404) = false := by simp [h4]
      have e5 : (r.status == 406) = false := by simp [h5]
      have e6 : (r.status == 409) = false := by simp [h6]
      have e7 : (r.status == 429) = false := by simp [h7]
      have e8 : (r.status == 500) = false := by simp [h8]
      simp [authorize, he, hp, hge, raise_for_errors, raisesTable,
        List.lookup, e1, e2, e4, e5, e6, e7, e8, h3]
    · simp [authorize, he, hp, hge]
  · intro fs hfs hs
    have hlt : ¬ (400 ≤ r.status) := by omega
    simp [authorize, he, hp, hlt, hfs, sessionOfE]

/-- C7 witness: the amended theorem applied to a concrete 403 response. -/
theorem C7_authorize_amended_witness :
    authorize "a" "b" { status := 403, respBody := .jnull } =
      .error (xyzRaise .AuthorizationError
        (.resp { status := 403, respBody := .jnull })
        (some "invalid email or password, or account was not activated.")) :=
  (C7_authorize_amended "a" "b" { status := 403, respBody := .jnull }
    (by decide) (by decide)).1 rfl

/-- C8 counterexample: a rate-limited fetch (status 429, no data) returns
`None` — exactly the same result as a plain not-found — instead of
surfacing as an exception.  The claim says every failure other than
not-found surfaces as an exception. -/
theorem C8_not_found_counterexample :
    get_gdps 1 { status := 429, respBody := .jdict [] } =
      get_gdps 1 { status := 200, respBody := .jdict [] } ∧
    get_gdps 1 { status := 429, respBody := .jdict [] } = .ok none :=
  ⟨rfl, rfl⟩

/-- C8 amended: for positive ids the fetch-by-id operations raise only for
status 500 (InternalServerError carrying the response); for every other
status they return the decoded object when the response's data field is a
dict and `None` otherwise — so the not-found result does not distinguish a
missing object from a non-500 failure. -/
theorem C8_fetch_by_id_amended (account_id gdps_id comment_id : Int)
    (g : GDPS) (r : Response)
    (ha : 0 < account_id) (hg : 0 < gdps_id) (hc : 0 < comment_id) :
    (r.status = 500 →
      get_account account_id r = .error (iseExc r) ∧
      get_gdps gdps_id r = .error (iseExc r) ∧
      GDPS.get_comment g comment_id r = .error (iseExc r)) ∧
    (r.status ≠ 500 → ∀ fs, rdata r = .jdict fs →
      get_account account_id r = .ok (some (accountOf (.jdict fs))) ∧
      get_gdps gdps_id r = .ok (some (gdpsOf (.jdict fs))) ∧
      GDPS.get_comment g comment_id r = .ok (some (commentOf (.jdict fs)))) ∧
    (r.status ≠ 500 → (∀ fs, rdata r ≠ .jdict fs) →
      get_account account_id r = .ok none ∧
      get_gdps gdps_id r = .ok none ∧
      GDPS.get_comment g comment_id r = .ok none) := by
  have ha' : account_id ≠ 0 := by omega
  have hg' : gdps_id ≠ 0 := by omega
  have hc' : comment_id ≠ 0 := by omega
  refine ⟨?_, ?_, ?_⟩
  · intro hs
    exact ⟨by simp [get_account, ha', hs], by simp [get_gdps, hg', hs],
      by simp [GDPS.get_comment, hc', hs]⟩
  · intro hs fs hfs
    exact ⟨by simp [get_account, ha', hs, hfs],
      by simp [get_gdps, hg', hs, hfs],
      by simp [GDPS.get_comment, hc', hs, hfs]⟩
  · intro hs hnd
    rcases hrd : rdata r with _ | b | n | st | xs | fs
    case jdict => exact absurd hrd (hnd fs)
    all_goals
      exact ⟨by simp [get_account, ha', hs, hrd],
        by simp [get_gdps, hg', hs, hrd],
        by simp [GDPS.get_comment, hc', hs, hrd]⟩

/-- C8 witness: the amended theorem applied to a concrete 500 response. -/
theorem C8_fetch_by_id_amended_witness :
    get_account 1 { status := 500, respBody := .jnull } =
      .error (iseExc { status := 500, respBody := .jnull }) ∧
    get_gdps 1 { status := 500, respBody := .jnull } =
      .error (iseExc { status := 500, respBody := .jnull }) ∧
    GDPS.get_comment (gdpsOf (.jdict [])) 1
        { status := 500, respBody := .jnull } =
      .error (iseExc { status := 500, respBody := .jnull }) :=
  (C8_fetch_by_id_amended 1 1 1 (gdpsOf (.jdict []))
    { status := 500, respBody := .jnull }
    (by decide) (by decide) (by decide)).1 rfl

/-- C9: entering the `with` block publishes the session as the active one
and returns it; `__exit__` invokes `close()` exactly when the block exits
normally (`exc_type is None`), skips it on an exception, and always
returns `False`, so the exception is never suppressed. -/
theorem C9_scoped_session (s : Session) (auth : Option Session)
    (exc : Option PyExc) :
    Session.enter s auth = (s, some s) ∧
    (Session.exitStep exc).suppress = false ∧
    ((Session.exitStep exc).closeCalled = true ↔ exc = none) := by
  refine ⟨rfl, ?_, ?_⟩ <;> cases exc <;> simp [Session.exitStep]

/-- C10: `Session.close()` mutates no field of the session and leaves the
process-wide active-session pointer untouched, for every response the
delete request may get; hence a closed session that was active stays
active and a subsequent authenticated operation (`me`) still passes the
local auth gate — its request is issued with the stale token. -/
theorem C10_close_frame (s t : Session) (auth : Option Session)
    (r : Response) :
    (Session.close s auth r).1 = s ∧
    (Session.close s auth r).2.1 = auth ∧
    me ((Session.close s (some t) r).2.1) =
      .send { method := "GET",
              url := [.lit "https://gdps.xyz/api/account/me/"],
              params := [], reqBody := none, bearer := some t.token } :=
  ⟨rfl, rfl, rfl⟩

end GdpsXyz
